import Mathlib

/-!
A shallow embedding of the `futures-timer` adapter and lifecycle code
(`src/ext.rs`, `src/global.rs`).

Machine conventions:
* `Poll α` mirrors `std::task::Poll`.
* Rust `Result<T, E>` is `Except E T`.
* Instants and durations are `Nat` (the code only compares instants and
  subtracts `when - now` under `now < when`).
* The inner future's / stream's poll outcome and the `Delay` timer's poll
  outcome are environment-dependent, so the embedded poll functions take
  them as explicit parameters; a `Bool` component of the result records
  whether control reached the timer-poll statement.
* A Rust panic is modelled by the `PanicOr.panicked` constructor.
-/

/-- Mirror of `std::task::Poll`. -/
inductive Poll (α : Type) where
  | ready (a : α)
  | pending
  deriving DecidableEq, Repr

/-- Mirror of `Poll::is_ready`. -/
def Poll.isReady {α : Type} : Poll α → Bool
  | .ready _ => true
  | .pending => false

/-- Mirror of `Result::map_err`. -/
def Result.mapErr {E E' A : Type} (f : E → E') : Except E A → Except E' A
  | .ok a => .ok a
  | .error e => .error (f e)

/-- Mirror of `Poll::map_err` on a `Poll<Result<_, _>>`. -/
def Poll.mapErr {E E' A : Type} (f : E → E') : Poll (Except E A) → Poll (Except E' A)
  | .ready r => .ready (Result.mapErr f r)
  | .pending => .pending

/-- Mirror of `enum TimeoutError<E>` from `src/ext.rs`. -/
inductive TimeoutError (E : Type) where
  | timedOut
  | innerError (e : E)
  deriving DecidableEq, Repr

/-- Mirror of `TimeoutError::into_inner` from `src/ext.rs`. -/
def TimeoutError.into_inner {E : Type} : TimeoutError E → Option E
  | .timedOut => none
  | .innerError e => some e

/-- Outcome of a computation that may panic (`PanicOr.panicked` is a Rust panic). -/
inductive PanicOr (α : Type) where
  | panicked
  | ok (a : α)
  deriving DecidableEq, Repr

/-- Mirror of `Option::unwrap`, which panics on `None`. -/
def Option.unwrap {α : Type} : Option α → PanicOr α
  | none => .panicked
  | some a => .ok a

/-- Mirror of `TimeoutError::unwrap` from `src/ext.rs`: `self.into_inner().unwrap()`. -/
def TimeoutError.unwrap {E : Type} (v : TimeoutError E) : PanicOr E :=
  v.into_inner.unwrap

/-- Mirror of `impl Error for TimeoutError` (`fn source`) from `src/ext.rs`:
`TimedOut` has no source; `InnerError(e)` returns `e.source()`, i.e. it
delegates to the inner error's own source.  `sourceE` stands for the inner
error type's `Error::source` method. -/
def TimeoutError.source {E C : Type} (sourceE : E → Option C) : TimeoutError E → Option C
  | .timedOut => none
  | .innerError e => sourceE e

/-- The `source` method as the specification sentence describes it (the inner
failure value itself is exposed as the underlying cause): `InnerError(e)`
reports `e` as the cause, `TimedOut` reports none.  Written from the spec's
words for comparison with `TimeoutError.source`, which is the code. -/
def TimeoutError.sourceAsSpecified {E : Type} : TimeoutError E → Option E
  | .timedOut => none
  | .innerError e => some e

/-- A concrete error type whose values may carry their own cause, used to
evaluate the `source` chain on explicit inputs: `leaf` has no cause,
`node c` has cause `c`. -/
inductive ChainErr where
  | leaf
  | node (cause : ChainErr)
  deriving DecidableEq, Repr

/-- The `Error::source` method of `ChainErr`. -/
def ChainErr.source : ChainErr → Option ChainErr
  | .leaf => none
  | .node c => some c

/-- Modelled from the spec: the Single-Shot Timer (`Delay`, whose source is not
among the provided files) supports construction for a duration and in-place
re-arming via `reset`; we track only the duration it is currently armed for.
Its readiness at a given poll is environment-dependent and is passed to the
adapters' poll functions as a `Poll Unit` parameter. -/
structure Delay where
  armedFor : Nat
  deriving DecidableEq, Repr

/-- Mirror of `Delay::new(dur)`. -/
def Delay.new (dur : Nat) : Delay := ⟨dur⟩

/-- Modelled from the spec: `Delay::reset(dur)` re-arms the timer for `dur`. -/
def Delay.reset (d : Delay) (dur : Nat) : Delay := { d with armedFor := dur }

/-- Mirror of `struct Timeout<F>` from `src/ext.rs` (the future field is the
wrapped inner future, kept abstract). -/
structure Timeout (F : Type) where
  future : F
  timeout : Delay
  deriving DecidableEq, Repr

/-- Mirror of `TryFutureExt::timeout` from `src/ext.rs`. -/
def TryFutureExt.timeout {F : Type} (future : F) (dur : Nat) : Timeout F :=
  { timeout := Delay.new dur, future := future }

/-- Mirror of `impl Future for Timeout<F>` (`fn poll`) from `src/ext.rs`.
`innerPoll` is the outcome of `self.future().try_poll(cx)` and `timerPoll`
the outcome of `self.timeout().poll(cx)`.  The `Bool` records whether control
reached the timer-poll statement (it is skipped by the early `return` when the
inner future is ready). -/
def Timeout.poll {E A : Type} (innerPoll : Poll (Except E A)) (timerPoll : Poll Unit) :
    Poll (Except (TimeoutError E) A) × Bool :=
  match innerPoll with
  | .pending =>
    if timerPoll.isReady then
      (.ready (.error .timedOut), true)
    else
      (.pending, true)
  | other => (other.mapErr TimeoutError.innerError, false)

/-- Mirror of `struct TimeoutStream<S>` from `src/ext.rs`. -/
structure TimeoutStream (S : Type) where
  timeout : Delay
  dur : Nat
  stream : S
  deriving DecidableEq, Repr

/-- Mirror of `TryStreamExt::timeout` from `src/ext.rs`: stores the fixed
duration `dur` alongside a fresh `Delay::new(dur)`. -/
def TryStreamExt.timeout {S : Type} (stream : S) (dur : Nat) : TimeoutStream S :=
  { timeout := Delay.new dur, dur := dur, stream := stream }

/-- Mirror of `impl Stream for TimeoutStream<S>` (`fn poll_next`) from
`src/ext.rs`.  `innerPoll` is the outcome of `self.stream().try_poll_next(cx)`
and `timerPoll` the outcome of `self.timeout().poll(cx)`.  Returns the updated
adapter state, the yielded poll result, and whether control reached the
timer-poll statement. -/
def TimeoutStream.pollNext {S E A : Type} (s : TimeoutStream S)
    (innerPoll : Poll (Option (Except E A))) (timerPoll : Poll Unit) :
    TimeoutStream S × Poll (Option (Except (TimeoutError E) A)) × Bool :=
  let dur := s.dur
  match innerPoll with
  | .ready (some result) =>
    ({ s with timeout := s.timeout.reset dur },
      .ready (some (Result.mapErr TimeoutError.innerError result)), false)
  | .ready none =>
    ({ s with timeout := s.timeout.reset dur }, .ready none, false)
  | .pending =>
    if timerPoll.isReady then
      ({ s with timeout := s.timeout.reset dur },
        .ready (some (.error .timedOut)), true)
    else
      (s, .pending, true)

/-- How the driver loop in `run` (`src/global.rs`) suspends its thread at the
end of one iteration. -/
inductive ParkAction where
  | parkTimeout (d : Nat)
  | noPark
  | park
  deriving DecidableEq, Repr

/-- Mirror of the sleeping step of `run` from `src/global.rs`: after the
iteration has polled and advanced the timer, `nextEvent` is the result of
`timer.next_event()` and `now` is `Instant::now()`; the match decides how the
thread is suspended before the loop continues. -/
def runSleep (nextEvent : Option Nat) (now : Nat) : ParkAction :=
  match nextEvent with
  | some w =>
    if now < w then .parkTimeout (w - now) else .noPark
  | none => .park

/-- Mirror of the `while !done.load(..)` loop structure of `run` from
`src/global.rs`: `loads n` is the value the `n`-th check of the shutdown flag
observes; the result lists the indices of the drain/fire/sleep cycles actually
performed, starting from check index `i`, within `fuel` checks. -/
def runCycles (loads : Nat → Bool) : Nat → Nat → List Nat
  | 0, _ => []
  | Nat.succ fuel, i =>
    if loads i then [] else i :: runCycles loads fuel (i + 1)

/-- Modelled from the spec: the Wait Handle (`TimerHandle`, whose source is not
among the provided files), a cheap cloneable reference to the shared engine
state; opaque here. -/
structure TimerHandle where
  deriving DecidableEq, Repr

/-- Mirror of `TimerHandle::clone`. -/
def TimerHandle.clone (t : TimerHandle) : TimerHandle := t

/-- Mirror of `struct HelperThread` from `src/global.rs`: the join handle (an
opaque `Unit` when present), the `TimerHandle`, and the value of the shared
`done` shutdown flag. -/
structure HelperThread where
  thread : Option Unit
  timer : TimerHandle
  done : Bool
  deriving DecidableEq, Repr

/-- Mirror of `HelperThread::new` from `src/global.rs`.  `spawn` is the outcome
of `thread::Builder::new().spawn(..)`; the `?` operator propagates its error,
and on success the constructed value holds the join handle, a handle cloned
from the timer, and the freshly-created shutdown flag (initially `false`). -/
def HelperThread.new {ε : Type} (spawn : Except ε Unit) : Except ε HelperThread :=
  spawn.map fun th => { thread := some th, timer := TimerHandle.mk, done := false }

/-- Mirror of `HelperThread::handle` from `src/global.rs`. -/
def HelperThread.handle (h : HelperThread) : TimerHandle := h.timer.clone

/-- Mirror of `HelperThread::forget` from `src/global.rs`: `self.thread.take()`
discards the join handle; nothing else is touched. -/
def HelperThread.forget (h : HelperThread) : HelperThread :=
  { h with thread := none }

/-- Observable effects of `Drop for HelperThread` from `src/global.rs`, in
order of occurrence. -/
inductive DropEffect where
  | storeDone
  | unpark
  | join
  deriving DecidableEq, Repr

/-- Mirror of `impl Drop for HelperThread` from `src/global.rs`: if the join
handle was already taken, return immediately with no effect; otherwise store
`true` into the shutdown flag, unpark the driver thread, join it, and discard
the join result (`drop(thread.join())`).  `joinResult` is what `join` returned
(`panicked` when the driver thread terminated by panicking); the list records
the effects in order, and an overall `PanicOr.ok` means the destructor itself
completed normally. -/
def HelperThread.drop (h : HelperThread) (joinResult : PanicOr Unit) :
    PanicOr (List DropEffect) :=
  match h.thread with
  | none => .ok []
  | some _ =>
    match joinResult with
    | _ => .ok [.storeDone, .unpark, .join]

/-- Claim C1: `Timeout::poll` polls the inner future first; a ready inner
result is returned unconditionally (success unchanged, failure wrapped as
`TimeoutError::InnerError`) with the timer never polled and its readiness never
affecting the outcome; only when the inner future is pending is the timer
polled, yielding `Ready(Err(TimedOut))` if it is ready and `Pending`
otherwise. -/
theorem timeout_poll_spec (E A : Type) (a : A) (e : E) (tp tp' : Poll Unit) :
    Timeout.poll (.ready (.ok a) : Poll (Except E A)) tp = (.ready (.ok a), false)
    ∧ Timeout.poll (.ready (.error e) : Poll (Except E A)) tp
        = (.ready (.error (TimeoutError.innerError e)), false)
    ∧ Timeout.poll (.ready (.ok a) : Poll (Except E A)) tp
        = Timeout.poll (.ready (.ok a)) tp'
    ∧ Timeout.poll (.ready (.error e) : Poll (Except E A)) tp
        = Timeout.poll (.ready (.error e)) tp'
    ∧ Timeout.poll (.pending : Poll (Except E A)) (.ready ())
        = (.ready (.error .timedOut), true)
    ∧ Timeout.poll (.pending : Poll (Except E A)) .pending = (.pending, true) := by
  refine ⟨rfl, rfl, rfl, rfl, rfl, rfl⟩

/-- Claim C2: `TimeoutStream::poll_next` polls the inner stream first; on
`Ready(Some(item))` or `Ready(None)` it resets the timer to the fixed duration
stored at construction and forwards the item (failures wrapped as
`InnerError`) or the end-of-stream, without polling the timer; only when the
inner stream is pending is the timer polled, and a ready timer is reset to the
same duration and yields `Ready(Some(Err(TimedOut)))` — never `Ready(None)`.
The final conjunct ties the stored duration to the constructor
`TryStreamExt::timeout`. -/
theorem timeout_stream_poll_next_spec (S E A : Type) (s : TimeoutStream S)
    (r : Except E A) (tp : Poll Unit) :
    s.pollNext (.ready (some r)) tp
      = ({ s with timeout := Delay.new s.dur },
          .ready (some (Result.mapErr TimeoutError.innerError r)), false)
    ∧ s.pollNext (.ready (none : Option (Except E A))) tp
      = ({ s with timeout := Delay.new s.dur }, .ready none, false)
    ∧ s.pollNext (.pending : Poll (Option (Except E A))) (.ready ())
      = ({ s with timeout := Delay.new s.dur },
          .ready (some (.error .timedOut)), true)
    ∧ s.pollNext (.pending : Poll (Option (Except E A))) .pending
      = (s, .pending, true)
    ∧ (s.pollNext (.pending : Poll (Option (Except E A))) (.ready ())).2.1
        ≠ .ready none
    ∧ ∀ (st : S) (d : Nat),
        TryStreamExt.timeout st d = { timeout := Delay.new d, dur := d, stream := st } := by
  refine ⟨rfl, rfl, rfl, rfl, ?_, fun st d => rfl⟩
  simp [TimeoutStream.pollNext, Poll.isReady]

/-- Claim C3: in the sleeping step of `run`, `Some(when)` with `now < when`
suspends via `park_timeout` for exactly `when - now`; `Some(when)` with
`now >= when` does not suspend at all; `None` suspends indefinitely via
`park`; and a timed suspension is only ever issued when the deadline is
strictly in the future, for exactly the remaining time. -/
theorem run_sleep_spec (w now : Nat) :
    (now < w → runSleep (some w) now = ParkAction.parkTimeout (w - now))
    ∧ (¬ now < w → runSleep (some w) now = ParkAction.noPark)
    ∧ runSleep none now = ParkAction.park
    ∧ ∀ d : Nat, runSleep (some w) now = ParkAction.parkTimeout d
        → now < w ∧ d = w - now := by
  refine ⟨fun h => by simp [runSleep, h], fun h => by simp [runSleep, h], rfl,
    fun d hd => ?_⟩
  by_cases h : now < w
  · have heq : ParkAction.parkTimeout (w - now) = ParkAction.parkTimeout d := by
      simpa [runSleep, h] using hd
    exact ⟨h, (ParkAction.parkTimeout.inj heq).symm⟩
  · exact absurd hd (by simp [runSleep, h])

/-- Witness for `run_sleep_spec` at concrete inputs. -/
theorem run_sleep_spec_witness :
    runSleep (some 5) 3 = ParkAction.parkTimeout 2
    ∧ runSleep (some 3) 5 = ParkAction.noPark
    ∧ (3 < 5 ∧ 2 = 5 - 3) :=
  ⟨(run_sleep_spec 5 3).1 (by decide), (run_sleep_spec 3 5).2.1 (by decide),
    (run_sleep_spec 5 3).2.2.2 2 (by decide)⟩

/-- Claim C4: dropping a `HelperThread` whose join handle is still present
performs, in order, the store of `true` into the shutdown flag, the unpark of
the driver thread, and the join; and the driver loop, which checks the flag at
the top of every iteration, performs no further drain/fire/sleep cycle once a
check observes the flag set. -/
theorem helper_drop_shutdown (h : HelperThread) (t : Unit) (j : PanicOr Unit)
    (hth : h.thread = some t) :
    h.drop j = PanicOr.ok [DropEffect.storeDone, DropEffect.unpark, DropEffect.join]
    ∧ ∀ (loads : Nat → Bool) (k fuel : Nat),
        loads k = true → runCycles loads fuel k = [] := by
  constructor
  · simp [HelperThread.drop, hth]
  · intro loads k fuel hk
    cases fuel with
    | zero => rfl
    | succ n => simp [runCycles, hk]

/-- Witness for `helper_drop_shutdown` at concrete inputs. -/
theorem helper_drop_shutdown_witness :
    HelperThread.drop ⟨some (), TimerHandle.mk, false⟩ (PanicOr.ok ())
        = PanicOr.ok [DropEffect.storeDone, DropEffect.unpark, DropEffect.join]
    ∧ runCycles (fun _ => true) 5 0 = [] := by
  have h := helper_drop_shutdown ⟨some (), TimerHandle.mk, false⟩ () (PanicOr.ok ()) rfl
  exact ⟨h.1, h.2 (fun _ => true) 0 5 rfl⟩

/-- Counterexample to claim C5 as stated: for the concrete inner error
`ChainErr.leaf` (which has no cause of its own), the code's
`Error::source` on `InnerError(leaf)` returns `None`, so the inner failure
value is not exposed as the underlying cause, contrary to the spec reading
(`sourceAsSpecified`), which reports `Some(leaf)`. -/
theorem timeout_error_source_counterexample :
    TimeoutError.source ChainErr.source (TimeoutError.innerError ChainErr.leaf) = none
    ∧ TimeoutError.sourceAsSpecified (TimeoutError.innerError ChainErr.leaf)
        = some ChainErr.leaf
    ∧ TimeoutError.source ChainErr.source (TimeoutError.innerError ChainErr.leaf)
        ≠ TimeoutError.sourceAsSpecified (TimeoutError.innerError ChainErr.leaf) :=
  ⟨rfl, rfl, by decide⟩

/-- Claim C5 (amended): `TimeoutError` distinguishes `TimedOut` (carrying no
inner result) from `InnerError(e)`; the inner failure value is preserved and
inspectable via `into_inner`; `Error::source` on `InnerError(e)` delegates to
the inner error's own source (`e.source()`, so `e` itself is not reported as
the cause), and `TimedOut` reports no underlying cause. -/
theorem timeout_error_source_amended (E C : Type) (sourceE : E → Option C) (e : E) :
    TimeoutError.into_inner (TimeoutError.innerError e) = some e
    ∧ TimeoutError.source sourceE (TimeoutError.innerError e) = sourceE e
    ∧ TimeoutError.source sourceE (TimeoutError.timedOut : TimeoutError E) = none :=
  ⟨rfl, rfl, rfl⟩

/-- Claim C6: `HelperThread::new` propagates a spawn failure as `Err` carrying
that failure, constructing no `HelperThread`; on success it returns `Ok` with
a manager holding the join handle, the timer handle, and the shutdown flag
initially `false`. -/
theorem helper_new_spec (ε : Type) (err : ε) (th : Unit) :
    HelperThread.new (Except.error err : Except ε Unit) = Except.error err
    ∧ HelperThread.new (Except.ok th : Except ε Unit)
        = Except.ok { thread := some th, timer := TimerHandle.mk, done := false } :=
  ⟨rfl, rfl⟩

/-- Claim C7: `TimeoutError::into_inner` is a checked, partial extraction: it
returns `Some(e)` exactly on `InnerError(e)` and `None` exactly on `TimedOut`
(and, being a total function, never panics). -/
theorem into_inner_spec (E : Type) (v : TimeoutError E) :
    (∀ e : E, v.into_inner = some e ↔ v = TimeoutError.innerError e)
    ∧ (v.into_inner = none ↔ v = TimeoutError.timedOut) := by
  cases v <;> simp [TimeoutError.into_inner]

/-- Witness for `into_inner_spec` at a concrete input. -/
theorem into_inner_spec_witness :
    (TimeoutError.innerError 0 : TimeoutError Nat).into_inner = some 0 :=
  ((into_inner_spec Nat (TimeoutError.innerError 0)).1 0).mpr rfl

/-- Claim C8: after `HelperThread::forget` the join handle is discarded and the
subsequent destructor does nothing: no shutdown-flag store, no unpark, no join
(empty effect list); the timer handle and the flag itself are untouched by
`forget`. -/
theorem forget_frame (h : HelperThread) (j : PanicOr Unit) :
    (HelperThread.forget h).thread = none
    ∧ (HelperThread.forget h).drop j = PanicOr.ok []
    ∧ (HelperThread.forget h).timer = h.timer
    ∧ (HelperThread.forget h).done = h.done :=
  ⟨rfl, rfl, rfl, rfl⟩

/-- Claim C9: `TimeoutError::unwrap` returns the inner error on
`InnerError(e)` and panics (`Option::unwrap` on `None`) on `TimedOut`. -/
theorem unwrap_spec (E : Type) (e : E) :
    TimeoutError.unwrap (TimeoutError.innerError e) = PanicOr.ok e
    ∧ TimeoutError.unwrap (TimeoutError.timedOut : TimeoutError E) = PanicOr.panicked :=
  ⟨rfl, rfl⟩

/-- Claim C10: `Drop for HelperThread` discards the join result
(`drop(thread.join())`): the destructor's behaviour does not depend on how the
driver thread terminated, and it always completes normally (never propagating
a panic or error), even when the driver thread itself panicked. -/
theorem drop_discards_join (h : HelperThread) (j j' : PanicOr Unit) :
    h.drop j = h.drop j' ∧ ∃ effs, h.drop j = PanicOr.ok effs := by
  obtain ⟨th, tm, dn⟩ := h
  cases th with
  | none => exact ⟨rfl, ⟨[], rfl⟩⟩
  | some t =>
    exact ⟨rfl, ⟨[DropEffect.storeDone, DropEffect.unpark, DropEffect.join], rfl⟩⟩
